import Mathlib

/-!
Verification of the URL-collection pipeline of Flask-Sitemap
(`flask_sitemap/__init__.py`).

The embedding models the `Sitemap` extension class: its ordered generator
list, the default `_routes_without_params` generator, `init_app`'s
double-initialization guard, and the candidate-normalization loop of
`_generate_all_urls`.

External collaborators (Flask's `url_for`, the routing table, template
rendering) are taken as parameters: `url_for` is an arbitrary function from
an endpoint name and a keyword dictionary to a URL string, and the
application's routing table is a list of `Rule` values.

Python dictionaries that flow through the pipeline are modelled as
association lists in insertion order, with `dict.update` overwriting
existing keys in place and appending new ones.  Because
`_generate_all_urls` mutates the parameter mapping of a candidate in place
(`values.update(kwargs)`), the per-candidate step returns the post-state of
the candidate object alongside the emitted record, making the heap effect
visible to theorems.  Python exceptions (tuple-unpacking errors,
attribute errors on non-mapping parameters) are modelled with
`Except String`.
-/

namespace FlaskSitemap

/-- Primitive Python values that occur as dictionary values and as metadata
entries (strings, numbers, booleans, `None`).  `vnone` models Python's
`None`, which `config.get('SITEMAP_URL_SCHEME')` returns when the option is
unset. -/
inductive Value where
  | vstr (s : String)
  | vint (n : Int)
  | vbool (b : Bool)
  | vnone
deriving DecidableEq, Repr

/-- A Python dictionary with string keys, in insertion order. -/
abbrev Dict : Type := List (String × Value)

/-- `k in d` for a Python dictionary. -/
def dictContains (d : Dict) (k : String) : Bool :=
  d.any (fun p => p.1 == k)

/-- `d[k] = v` for a Python dictionary: overwrite an existing key in place,
otherwise append the new binding at the end. -/
def dictSet (d : Dict) (k : String) (v : Value) : Dict :=
  if dictContains d k then
    d.map (fun p => if p.1 == k then (k, v) else p)
  else
    d ++ [(k, v)]

/-- `d.update(kw)` for Python dictionaries: assign each binding of `kw` in
order. -/
def dictUpdate (d : Dict) (kw : List (String × Value)) : Dict :=
  kw.foldl (fun acc p => dictSet acc p.1 p.2) d

/-- One element of a tuple candidate: Python lets the trailing metadata
positions hold arbitrary objects, so an element is either a primitive value
or a dictionary. -/
inductive Elem where
  | val (v : Value)
  | map (entries : Dict)
deriving DecidableEq, Repr

/-- A candidate yielded by a URL generator, dispatched in
`_generate_all_urls` by `isinstance`: a plain string, a parameter mapping,
or (the fallback `else` branch, "Assume a tuple.") a sequence of elements. -/
inductive Candidate where
  | str (s : String)
  | map (entries : Dict)
  | seq (elems : List Elem)
deriving DecidableEq, Repr

/-- The `result` dictionary built for one candidate.  All fields start
absent (`result = {}`); `loc` is assigned on every emitted path, the
metadata keys only from trailing tuple elements. -/
structure URLRecord where
  loc : Option String := Option.none
  lastmod : Option Elem := Option.none
  changefreq : Option Elem := Option.none
  priority : Option Elem := Option.none
deriving DecidableEq, Repr

/-- The three optional metadata keys, in the order the source iterates
them: `for key in ['lastmod', 'changefreq', 'priority']`. -/
inductive MetaKey where
  | lastmod
  | changefreq
  | priority
deriving DecidableEq, Repr

def metaKeys : List MetaKey := [MetaKey.lastmod, MetaKey.changefreq, MetaKey.priority]

/-- `result[key] = x` for one metadata key. -/
def setMeta (r : URLRecord) : MetaKey → Elem → URLRecord
  | MetaKey.lastmod, x => { r with lastmod := Option.some x }
  | MetaKey.changefreq, x => { r with changefreq := Option.some x }
  | MetaKey.priority, x => { r with priority := Option.some x }

/-- The metadata assignment loop of `_generate_all_urls`: walk the key list
and the leftover tuple elements in lockstep, stopping when either runs out
(`if len(left) == 0: break`). -/
def assignMeta (r : URLRecord) : List MetaKey → List Elem → URLRecord
  | [], _ => r
  | _, [] => r
  | k :: ks, x :: xs => assignMeta (setMeta r k x) ks xs

/-- A registered URL generator: its `__name__` (used as the default
endpoint for mapping candidates) and the candidates one invocation yields,
in order. -/
structure Generator where
  name : String
  yields : List Candidate
deriving DecidableEq, Repr

/-- The configuration options `_generate_all_urls` and
`_routes_without_params` read.  `SITEMAP_IGNORE_ENDPOINTS` may be `None`
(the source normalizes with `or []`), `SITEMAP_URL_SCHEME` is read with
`config.get` and may be absent. -/
structure SitemapConfig where
  ignoreEndpoints : Option (List String)
  urlScheme : Option String
  includeRulesWithoutParams : Bool
deriving DecidableEq, Repr

/-- `set(self.app.config['SITEMAP_IGNORE_ENDPOINTS'] or [])`; modelled as
the underlying list, with membership via `List.contains`. -/
def ignoreSet (cfg : SitemapConfig) : List String :=
  (cfg.ignoreEndpoints).getD []

/-- The scheme value placed in the fixed keyword arguments:
`config.get('SITEMAP_URL_SCHEME')`, i.e. the configured string or `None`. -/
def schemeValue : Option String → Value
  | Option.some s => Value.vstr s
  | Option.none => Value.vnone

/-- `kwargs = dict(_external=True, _scheme=...)`. -/
def sitemapKwargs (cfg : SitemapConfig) : List (String × Value) :=
  [("_external", Value.vbool true), ("_scheme", schemeValue cfg.urlScheme)]

/-- The external URL builder `url_for(endpoint, **values)`, an opaque
service of Flask: any function from endpoint and keyword dictionary to a
URL string. -/
def UrlFor : Type := String → Dict → String

/-- The body of the inner loop of `_generate_all_urls` for one candidate
`generated` of one `generator`.  Returns the record to yield (`Option.none`
when the `continue` for an ignored endpoint skips the candidate) together
with the post-state of the candidate object, which differs from the input
exactly when `values.update(kwargs)` mutated its parameter mapping.

Error paths: a sequence of fewer than two elements raises the
tuple-unpacking `ValueError`; a first element that is not a string, or a
second element that is not a mapping, makes Flask's `url_for` or
`values.update` raise, which the source propagates unchanged — both are
modelled as an immediate `Except.error`. -/
def collectOne (genName : String) (ignore : List String)
    (kwargs : List (String × Value)) (url_for : UrlFor) :
    Candidate → Except String (Option URLRecord × Candidate)
  | Candidate.str s =>
      Except.ok (Option.some { loc := Option.some s }, Candidate.str s)
  | Candidate.map values =>
      -- The endpoint defaults to the name of the generator function.
      let endpoint := genName
      if endpoint ∈ ignore then
        Except.ok (Option.none, Candidate.map values)
      else
        let values2 := dictUpdate values kwargs
        Except.ok
          (Option.some { loc := Option.some (url_for endpoint values2) },
           Candidate.map values2)
  | Candidate.seq elems =>
      match elems with
      | [] => Except.error "need more than 0 values to unpack"
      | [_] => Except.error "need more than 1 value to unpack"
      | e0 :: e1 :: left =>
        match e0 with
        | Elem.val (Value.vstr endpoint) =>
          let result := assignMeta {} metaKeys left
          if endpoint ∈ ignore then
            Except.ok (Option.none, Candidate.seq (e0 :: e1 :: left))
          else
            match e1 with
            | Elem.map values =>
              let values2 := dictUpdate values kwargs
              Except.ok
                (Option.some { result with loc := Option.some (url_for endpoint values2) },
                 Candidate.seq (e0 :: Elem.map values2 :: left))
            | _ => Except.error "values has no attribute update"
        | _ => Except.error "url_for endpoint is not a string"

/-- The inner `for generated in generator():` loop of `_generate_all_urls`
over one generator's candidates: process each candidate in order, yield the
records of the non-skipped ones, propagate the first exception. -/
def processCands (genName : String) (ignore : List String)
    (kwargs : List (String × Value)) (url_for : UrlFor) :
    List Candidate → Except String (List URLRecord)
  | [] => Except.ok []
  | c :: cs =>
    match collectOne genName ignore kwargs url_for c with
    | Except.error e => Except.error e
    | Except.ok (r, _) =>
      match processCands genName ignore kwargs url_for cs with
      | Except.error e => Except.error e
      | Except.ok rest =>
        match r with
        | Option.some rec => Except.ok (rec :: rest)
        | Option.none => Except.ok rest

/-- The outer `for generator in self.url_generators:` loop. -/
def processGens (ignore : List String) (kwargs : List (String × Value))
    (url_for : UrlFor) : List Generator → Except String (List URLRecord)
  | [] => Except.ok []
  | g :: gs =>
    match processCands g.name ignore kwargs url_for g.yields with
    | Except.error e => Except.error e
    | Except.ok rs =>
      match processGens ignore kwargs url_for gs with
      | Except.error e => Except.error e
      | Except.ok rest => Except.ok (rs ++ rest)

/-- `_generate_all_urls`: build the ignore set and the fixed keyword
arguments from configuration, then run all generators in order.  The
request context entered by the source is an ambient requirement of
`url_for` and has no observable effect in this model. -/
def generate_all_urls (cfg : SitemapConfig) (url_for : UrlFor)
    (gens : List Generator) : Except String (List URLRecord) :=
  processGens (ignoreSet cfg) (sitemapKwargs cfg) url_for gens

/-- The records one single generator contributes: the inner loop run with
that generator's name and candidates under the configured ignore set and
keyword arguments. -/
def collectGen (cfg : SitemapConfig) (url_for : UrlFor) (g : Generator) :
    Except String (List URLRecord) :=
  processCands g.name (ignoreSet cfg) (sitemapKwargs cfg) url_for g.yields

/-- The extension object: `__init__` and `register_generator` only touch
the ordered generator list `self.url_generators`. -/
structure Sitemap where
  url_generators : List Generator

/-- `Sitemap.__init__`: `self.url_generators = [self._routes_without_params]`
— the default generator is placed at the head of the list at
construction. -/
def Sitemap.mk0 (defaultGen : Generator) : Sitemap :=
  { url_generators := [defaultGen] }

/-- `register_generator`: appends to the ordered list.  (The source also
returns the generator unchanged so the method can serve as a decorator;
the returned extension state is what the claims are about.) -/
def Sitemap.register_generator (s : Sitemap) (g : Generator) : Sitemap :=
  { url_generators := s.url_generators ++ [g] }

/-- One entry of the application's routing table (`app.url_map`): the
endpoint name, the accepted HTTP methods, and the URL arguments the rule
requires. -/
structure Rule where
  endpoint : String
  methods : List String
  arguments : List String
deriving DecidableEq, Repr

/-- `_routes_without_params`: when `SITEMAP_INCLUDE_RULES_WITHOUT_PARAMS`
is set, yield `(rule.endpoint, {})` for every rule with `'GET' in
rule.methods and len(rule.arguments) == 0`; otherwise yield nothing. -/
def routes_without_params (cfg : SitemapConfig) (rules : List Rule) :
    List Candidate :=
  if cfg.includeRulesWithoutParams then
    rules.foldr
      (fun rule acc =>
        if "GET" ∈ rule.methods ∧ rule.arguments.length = 0 then
          Candidate.seq [Elem.val (Value.vstr rule.endpoint), Elem.map []] :: acc
        else acc)
      []
  else []

/-- The application object as `init_app` observes it: `app.extensions` may
be absent (`hasattr`) and otherwise is a dictionary; only its keys decide
the double-initialization guard, so the stored extension instances are not
modelled.  The subsequent configuration-defaulting and blueprint
registration act only after the guard and on state outside this model. -/
structure App where
  extensions : Option (List String)
deriving DecidableEq, Repr

/-- `init_app`: create `app.extensions` when absent, raise `RuntimeError`
when the `'sitemap'` key is already present, otherwise install the
extension under that key. -/
def init_app (app : App) : Except String App :=
  let exts := (app.extensions).getD []
  if "sitemap" ∈ exts then
    Except.error "Flask application already initialized"
  else
    Except.ok { extensions := Option.some (exts ++ ["sitemap"]) }

/-! ## Concrete instances used by witnesses and counterexamples -/

/-- A concrete configuration: no ignored endpoints, scheme `https`, default
generator enabled. -/
def cfg0 : SitemapConfig :=
  { ignoreEndpoints := Option.none
    urlScheme := Option.some "https"
    includeRulesWithoutParams := true }

/-- A concrete configuration whose ignore set contains the endpoint `g`. -/
def cfgIgnoreG : SitemapConfig :=
  { ignoreEndpoints := Option.some ["g"]
    urlScheme := Option.some "https"
    includeRulesWithoutParams := true }

/-- A concrete URL builder standing in for Flask's `url_for`. -/
def urlFor0 : UrlFor := fun endpoint _ => "https://example.org/" ++ endpoint

/-! ## Claims -/

/-- Claim C5: a string candidate is emitted with `loc` equal to the string
itself, with no other fields, for every generator name, every ignore set
(even one containing the string), every keyword dictionary and every URL
builder — endpoint resolution and the ignore set are never consulted, and
the candidate object is untouched. -/
theorem string_candidate_verbatim (genName : String) (ignore : List String)
    (kwargs : List (String × Value)) (url_for : UrlFor) (s : String) :
    collectOne genName ignore kwargs url_for (Candidate.str s) =
      Except.ok (Option.some { loc := Option.some s }, Candidate.str s) := rfl

/-- Claim C3: a mapping candidate yielded by a generator named `g` produces
exactly the record that the tuple candidate `('g', mapping)` produces — the
same endpoint, the same parameters, the same ignore-set check, and no
metadata fields in either case. -/
theorem mapping_candidate_equals_named_tuple (genName : String)
    (ignore : List String) (kwargs : List (String × Value)) (url_for : UrlFor)
    (m : Dict) :
    Except.map Prod.fst
        (collectOne genName ignore kwargs url_for (Candidate.map m)) =
      Except.map Prod.fst
        (collectOne genName ignore kwargs url_for
          (Candidate.seq [Elem.val (Value.vstr genName), Elem.map m])) := by
  by_cases h : genName ∈ ignore <;>
    simp [collectOne, assignMeta, metaKeys, h, Except.map]

/-- Claim C8: `init_app` raises the "already initialized" `RuntimeError`
exactly when the application's extensions table already holds a `sitemap`
entry, and otherwise installs the extension under that key without
raising. -/
theorem init_app_guard (app : App) :
    ("sitemap" ∈ (app.extensions).getD [] →
      init_app app = Except.error "Flask application already initialized") ∧
    ("sitemap" ∉ (app.extensions).getD [] →
      init_app app =
        Except.ok
          { extensions := Option.some (((app.extensions).getD []) ++ ["sitemap"]) }) := by
  constructor <;> intro h <;> simp [init_app, h]

/-- Witness for claim C8 at two concrete applications: one already carrying
the extension, one without an extensions table at all. -/
theorem init_app_guard_witness :
    init_app { extensions := Option.some ["sitemap"] } =
        Except.error "Flask application already initialized" ∧
    init_app { extensions := Option.none } =
        Except.ok { extensions := Option.some (([] : List String) ++ ["sitemap"]) } :=
  ⟨(init_app_guard { extensions := Option.some ["sitemap"] }).1 (by simp),
   (init_app_guard { extensions := Option.none }).2 (by simp)⟩

/-- Claim C9: a sequence candidate with fewer than two elements makes
collection fail fast with the tuple-unpacking error — no record is emitted
and the candidate is not silently skipped: the whole stream becomes that
error. -/
theorem short_sequence_unpack_error (genName : String) (ignore : List String)
    (kwargs : List (String × Value)) (url_for : UrlFor) (elems : List Elem)
    (h : elems.length < 2) :
    ∃ msg,
      collectOne genName ignore kwargs url_for (Candidate.seq elems) =
          Except.error msg ∧
        ∀ cs, processCands genName ignore kwargs url_for
            (Candidate.seq elems :: cs) = Except.error msg := by
  match elems with
  | [] => exact ⟨"need more than 0 values to unpack", rfl, fun cs => rfl⟩
  | [e] => exact ⟨"need more than 1 value to unpack", rfl, fun cs => rfl⟩
  | a :: b :: t => simp [List.length_cons] at h; omega

/-- Witness for claim C9 at the empty sequence candidate. -/
theorem short_sequence_unpack_error_witness :
    ∃ msg,
      collectOne "g" [] [] urlFor0 (Candidate.seq []) = Except.error msg ∧
        ∀ cs, processCands "g" [] [] urlFor0 (Candidate.seq [] :: cs) =
          Except.error msg :=
  short_sequence_unpack_error "g" [] [] urlFor0 [] (by decide)

/-- Claim C4: a candidate whose endpoint lies in the ignore set yields no
record, regardless of which generator produced it: a tuple candidate with
an ignored first element is skipped for every generator name, and a
mapping candidate is skipped exactly under its implied endpoint — the
generator's own name — being ignored.  The skip happens before URL
resolution (the result does not depend on the URL builder and the
candidate object is left untouched), and the surrounding stream is exactly
the stream without that candidate. -/
theorem ignored_endpoint_skipped (genName : String) (ignore : List String)
    (kwargs : List (String × Value)) (url_for : UrlFor) (e : String)
    (e1 : Elem) (left : List Elem) (m : Dict) (cs : List Candidate)
    (h : e ∈ ignore) :
    collectOne genName ignore kwargs url_for
        (Candidate.seq (Elem.val (Value.vstr e) :: e1 :: left)) =
      Except.ok (Option.none, Candidate.seq (Elem.val (Value.vstr e) :: e1 :: left)) ∧
    processCands genName ignore kwargs url_for
        (Candidate.seq (Elem.val (Value.vstr e) :: e1 :: left) :: cs) =
      processCands genName ignore kwargs url_for cs ∧
    (genName ∈ ignore →
      collectOne genName ignore kwargs url_for (Candidate.map m) =
        Except.ok (Option.none, Candidate.map m)) ∧
    (genName ∈ ignore →
      processCands genName ignore kwargs url_for (Candidate.map m :: cs) =
        processCands genName ignore kwargs url_for cs) := by
  refine ⟨by simp [collectOne, h], ?_, fun hg => by simp [collectOne, hg],
    fun hg => ?_⟩
  · cases hr : processCands genName ignore kwargs url_for cs <;>
      simp [processCands, collectOne, h, hr]
  · cases hr : processCands genName ignore kwargs url_for cs <;>
      simp [processCands, collectOne, hg, hr]

/-- Witness for claim C4: with ignore set `[e, g]`, a tuple candidate with
the ignored endpoint `e` vanishes from the stream of a generator named `g`,
as does a mapping candidate of that generator (whose own name is
ignored). -/
theorem ignored_endpoint_skipped_witness :
    collectOne "g" ["e", "g"] (sitemapKwargs cfg0) urlFor0
        (Candidate.seq (Elem.val (Value.vstr "e") :: Elem.map [] :: [])) =
      Except.ok (Option.none, Candidate.seq (Elem.val (Value.vstr "e") :: Elem.map [] :: [])) ∧
    processCands "g" ["e", "g"] (sitemapKwargs cfg0) urlFor0
        (Candidate.seq (Elem.val (Value.vstr "e") :: Elem.map [] :: []) :: []) =
      processCands "g" ["e", "g"] (sitemapKwargs cfg0) urlFor0 [] ∧
    collectOne "g" ["e", "g"] (sitemapKwargs cfg0) urlFor0 (Candidate.map []) =
      Except.ok (Option.none, Candidate.map []) ∧
    processCands "g" ["e", "g"] (sitemapKwargs cfg0) urlFor0 (Candidate.map [] :: []) =
      processCands "g" ["e", "g"] (sitemapKwargs cfg0) urlFor0 [] :=
  have hfull := ignored_endpoint_skipped "g" ["e", "g"] (sitemapKwargs cfg0)
    urlFor0 "e" (Elem.map []) [] [] [] (by simp)
  ⟨hfull.1, hfull.2.1, hfull.2.2.1 (by simp), hfull.2.2.2 (by simp)⟩

/-- Claim C2: a tuple candidate of length 2, 3, 4 or 5 assigns the elements
after the first two, in order, to exactly `lastmod`, then `changefreq`,
then `priority`, omitting the fields for which no element is present; a
2-element tuple yields a record with only `loc`. -/
theorem tuple_trailing_fields (genName : String) (ignore : List String)
    (kwargs : List (String × Value)) (url_for : UrlFor) (e : String)
    (m : Dict) (a b c : Elem) (h : e ∉ ignore) :
    collectOne genName ignore kwargs url_for
        (Candidate.seq [Elem.val (Value.vstr e), Elem.map m]) =
      Except.ok
        (Option.some { loc := Option.some (url_for e (dictUpdate m kwargs)) },
         Candidate.seq [Elem.val (Value.vstr e), Elem.map (dictUpdate m kwargs)]) ∧
    collectOne genName ignore kwargs url_for
        (Candidate.seq [Elem.val (Value.vstr e), Elem.map m, a]) =
      Except.ok
        (Option.some
          { loc := Option.some (url_for e (dictUpdate m kwargs))
            lastmod := Option.some a },
         Candidate.seq [Elem.val (Value.vstr e), Elem.map (dictUpdate m kwargs), a]) ∧
    collectOne genName ignore kwargs url_for
        (Candidate.seq [Elem.val (Value.vstr e), Elem.map m, a, b]) =
      Except.ok
        (Option.some
          { loc := Option.some (url_for e (dictUpdate m kwargs))
            lastmod := Option.some a
            changefreq := Option.some b },
         Candidate.seq [Elem.val (Value.vstr e), Elem.map (dictUpdate m kwargs), a, b]) ∧
    collectOne genName ignore kwargs url_for
        (Candidate.seq [Elem.val (Value.vstr e), Elem.map m, a, b, c]) =
      Except.ok
        (Option.some
          { loc := Option.some (url_for e (dictUpdate m kwargs))
            lastmod := Option.some a
            changefreq := Option.some b
            priority := Option.some c },
         Candidate.seq [Elem.val (Value.vstr e), Elem.map (dictUpdate m kwargs), a, b, c]) := by
  refine ⟨?_, ?_, ?_, ?_⟩ <;> simp [collectOne, assignMeta, metaKeys, setMeta, h]

/-- Witness for claim C2 at a concrete endpoint, mapping and metadata
elements under an ignore set not containing the endpoint. -/
theorem tuple_trailing_fields_witness :
    collectOne "g" ["skip"] (sitemapKwargs cfg0) urlFor0
        (Candidate.seq [Elem.val (Value.vstr "e"), Elem.map []]) =
      Except.ok
        (Option.some
          { loc := Option.some (urlFor0 "e" (dictUpdate [] (sitemapKwargs cfg0))) },
         Candidate.seq
           [Elem.val (Value.vstr "e"), Elem.map (dictUpdate [] (sitemapKwargs cfg0))]) ∧
    collectOne "g" ["skip"] (sitemapKwargs cfg0) urlFor0
        (Candidate.seq [Elem.val (Value.vstr "e"), Elem.map [],
          Elem.val (Value.vstr "2024-01-01")]) =
      Except.ok
        (Option.some
          { loc := Option.some (urlFor0 "e" (dictUpdate [] (sitemapKwargs cfg0)))
            lastmod := Option.some (Elem.val (Value.vstr "2024-01-01")) },
         Candidate.seq
           [Elem.val (Value.vstr "e"), Elem.map (dictUpdate [] (sitemapKwargs cfg0)),
            Elem.val (Value.vstr "2024-01-01")]) ∧
    collectOne "g" ["skip"] (sitemapKwargs cfg0) urlFor0
        (Candidate.seq [Elem.val (Value.vstr "e"), Elem.map [],
          Elem.val (Value.vstr "2024-01-01"), Elem.val (Value.vstr "daily")]) =
      Except.ok
        (Option.some
          { loc := Option.some (urlFor0 "e" (dictUpdate [] (sitemapKwargs cfg0)))
            lastmod := Option.some (Elem.val (Value.vstr "2024-01-01"))
            changefreq := Option.some (Elem.val (Value.vstr "daily")) },
         Candidate.seq
           [Elem.val (Value.vstr "e"), Elem.map (dictUpdate [] (sitemapKwargs cfg0)),
            Elem.val (Value.vstr "2024-01-01"), Elem.val (Value.vstr "daily")]) ∧
    collectOne "g" ["skip"] (sitemapKwargs cfg0) urlFor0
        (Candidate.seq [Elem.val (Value.vstr "e"), Elem.map [],
          Elem.val (Value.vstr "2024-01-01"), Elem.val (Value.vstr "daily"),
          Elem.val (Value.vint 1)]) =
      Except.ok
        (Option.some
          { loc := Option.some (urlFor0 "e" (dictUpdate [] (sitemapKwargs cfg0)))
            lastmod := Option.some (Elem.val (Value.vstr "2024-01-01"))
            changefreq := Option.some (Elem.val (Value.vstr "daily"))
            priority := Option.some (Elem.val (Value.vint 1)) },
         Candidate.seq
           [Elem.val (Value.vstr "e"), Elem.map (dictUpdate [] (sitemapKwargs cfg0)),
            Elem.val (Value.vstr "2024-01-01"), Elem.val (Value.vstr "daily"),
            Elem.val (Value.vint 1)]) :=
  tuple_trailing_fields "g" ["skip"] (sitemapKwargs cfg0) urlFor0 "e" []
    (Elem.val (Value.vstr "2024-01-01")) (Elem.val (Value.vstr "daily"))
    (Elem.val (Value.vint 1)) (by simp)

/-- Claim C7: with the include-routes-without-parameters option enabled,
the default generator yields exactly the pairs `(endpoint, {})` of the
rules accepting GET with zero URL arguments, in routing-table order; with
the option disabled it yields nothing. -/
theorem routes_without_params_characterization (cfg : SitemapConfig)
    (rules : List Rule) :
    routes_without_params cfg rules =
      if cfg.includeRulesWithoutParams then
        (rules.filter (fun r => decide ("GET" ∈ r.methods ∧ r.arguments = []))).map
          (fun r => Candidate.seq [Elem.val (Value.vstr r.endpoint), Elem.map []])
      else [] := by
  unfold routes_without_params
  cases cfg.includeRulesWithoutParams with
  | false => simp
  | true =>
    simp only [if_true]
    induction rules with
    | nil => rfl
    | cons r rs ih =>
      by_cases h : "GET" ∈ r.methods ∧ r.arguments.length = 0
      · have h2 : decide ("GET" ∈ r.methods ∧ r.arguments = []) = true := by
          simp [h.1, List.length_eq_zero.mp h.2]
        rw [List.foldr_cons, if_pos h, List.filter_cons, h2, if_pos rfl,
          List.map_cons, ih]
      · have h2 : decide ("GET" ∈ r.methods ∧ r.arguments = []) = false := by
          simp only [decide_eq_false_iff_not]
          intro hc
          exact h ⟨hc.1, by simp [hc.2]⟩
        rw [List.foldr_cons, if_neg h, List.filter_cons, h2, ih]
        simp

/-- Folding `register_generator` appends the registered generators, in
order, after the ones already held. -/
theorem register_generator_foldl (s : Sitemap) (gs : List Generator) :
    (gs.foldl Sitemap.register_generator s).url_generators =
      s.url_generators ++ gs := by
  induction gs generalizing s with
  | nil => simp
  | cons g gs ih =>
    rw [List.foldl_cons, ih]
    simp [Sitemap.register_generator]

/-- The outer generator loop concatenates, in list order, the record lists
the inner loop produces for the individual generators. -/
theorem processGens_join (ignore : List String)
    (kwargs : List (String × Value)) (url_for : UrlFor)
    (gens : List Generator) (rss : List (List URLRecord))
    (h : List.Forall₂
      (fun g rs => processCands g.name ignore kwargs url_for g.yields = Except.ok rs)
      gens rss) :
    processGens ignore kwargs url_for gens = Except.ok rss.flatten := by
  induction h with
  | nil => rfl
  | cons hgr _ ih => simp [processGens, hgr, ih]

/-- Claim C1: a `Sitemap` built by construction and a sequence of
registrations holds the default generator first and the registered
generators in registration order, and whenever each generator's candidates
collect to a record list, `_generate_all_urls` yields exactly those lists
concatenated in that order — so records appear in registration order and,
within one generator, in that generator's candidate order. -/
theorem generation_preserves_registration_order (cfg : SitemapConfig)
    (url_for : UrlFor) (d : Generator) (gs : List Generator)
    (rss : List (List URLRecord))
    (h : List.Forall₂ (fun g rs => collectGen cfg url_for g = Except.ok rs)
      (d :: gs) rss) :
    ((gs.foldl Sitemap.register_generator (Sitemap.mk0 d)).url_generators
        = d :: gs) ∧
    generate_all_urls cfg url_for
        ((gs.foldl Sitemap.register_generator (Sitemap.mk0 d)).url_generators) =
      Except.ok rss.flatten := by
  have horder :
      (gs.foldl Sitemap.register_generator (Sitemap.mk0 d)).url_generators
        = d :: gs := by
    rw [register_generator_foldl]
    rfl
  refine ⟨horder, ?_⟩
  rw [horder]
  exact processGens_join (ignoreSet cfg) (sitemapKwargs cfg) url_for (d :: gs) rss h

/-- Witness for claim C1: the default generator plus one registered
generator, each contributing one record, in order. -/
theorem generation_preserves_registration_order_witness :
    (([{ name := "g2", yields := [Candidate.str "/b"] }].foldl
        Sitemap.register_generator
        (Sitemap.mk0 { name := "default", yields := [Candidate.str "/a"] })).url_generators
      = { name := "default", yields := [Candidate.str "/a"] } ::
          [{ name := "g2", yields := [Candidate.str "/b"] }]) ∧
    generate_all_urls cfg0 urlFor0
        (([{ name := "g2", yields := [Candidate.str "/b"] }].foldl
          Sitemap.register_generator
          (Sitemap.mk0 { name := "default", yields := [Candidate.str "/a"] })).url_generators) =
      Except.ok
        ([[{ loc := Option.some "/a" }], [{ loc := Option.some "/b" }]] :
          List (List URLRecord)).flatten :=
  generation_preserves_registration_order cfg0 urlFor0
    { name := "default", yields := [Candidate.str "/a"] }
    [{ name := "g2", yields := [Candidate.str "/b"] }]
    [[{ loc := Option.some "/a" }], [{ loc := Option.some "/b" }]]
    (List.Forall₂.cons rfl (List.Forall₂.cons rfl List.Forall₂.nil))

/-- Every record the per-candidate step emits has its `loc` field set:
each emitting path of `collectOne` assigns `result['loc']` before the
yield. -/
theorem collectOne_loc_isSome (genName : String) (ignore : List String)
    (kwargs : List (String × Value)) (url_for : UrlFor) (c : Candidate)
    (r : URLRecord) (c2 : Candidate)
    (h : collectOne genName ignore kwargs url_for c =
      Except.ok (Option.some r, c2)) :
    (r.loc).isSome = true := by
  cases c with
  | str s =>
    simp only [collectOne, Except.ok.injEq, Prod.mk.injEq, Option.some.injEq] at h
    rw [← h.1]
    rfl
  | map m =>
    by_cases hm : genName ∈ ignore
    · simp [collectOne, hm] at h
    · simp only [collectOne, if_neg hm, Except.ok.injEq, Prod.mk.injEq,
        Option.some.injEq] at h
      rw [← h.1]
      rfl
  | seq elems =>
    rcases elems with _ | ⟨e0, _ | ⟨e1, left⟩⟩
    · simp [collectOne] at h
    · simp [collectOne] at h
    · rcases e0 with v | me
      · rcases v with s | n | b | _
        · by_cases hi : s ∈ ignore
          · simp [collectOne, hi] at h
          · rcases e1 with v1 | m1
            · simp [collectOne, if_neg hi] at h
            · simp only [collectOne, if_neg hi, Except.ok.injEq, Prod.mk.injEq,
                Option.some.injEq] at h
              rw [← h.1]
              rfl
        · simp [collectOne] at h
        · simp [collectOne] at h
        · simp [collectOne] at h
      · simp [collectOne] at h

/-- Every record the inner candidate loop emits has its `loc` field set. -/
theorem processCands_loc_isSome (genName : String) (ignore : List String)
    (kwargs : List (String × Value)) (url_for : UrlFor)
    (cands : List Candidate) (rs : List URLRecord)
    (h : processCands genName ignore kwargs url_for cands = Except.ok rs) :
    ∀ r ∈ rs, (r.loc).isSome = true := by
  induction cands generalizing rs with
  | nil =>
    simp only [processCands, Except.ok.injEq] at h
    rw [← h]
    intro r hr
    simp at hr
  | cons c cs ih =>
    simp only [processCands] at h
    cases hc : collectOne genName ignore kwargs url_for c with
    | error e => rw [hc] at h; simp at h
    | ok v =>
      obtain ⟨ropt, c2⟩ := v
      rw [hc] at h
      cases hrest : processCands genName ignore kwargs url_for cs with
      | error e => rw [hrest] at h; simp at h
      | ok rest =>
        rw [hrest] at h
        cases ropt with
        | none =>
          simp only [Except.ok.injEq] at h
          rw [← h]
          exact ih rest hrest
        | some rec =>
          simp only [Except.ok.injEq] at h
          rw [← h]
          intro r hr
          rcases List.mem_cons.mp hr with h1 | h2
          · rw [h1]; exact collectOne_loc_isSome genName ignore kwargs url_for c rec c2 hc
          · exact ih rest hrest r h2

/-- Every record the outer generator loop emits has its `loc` field set. -/
theorem processGens_loc_isSome (ignore : List String)
    (kwargs : List (String × Value)) (url_for : UrlFor)
    (gens : List Generator) (rs : List URLRecord)
    (h : processGens ignore kwargs url_for gens = Except.ok rs) :
    ∀ r ∈ rs, (r.loc).isSome = true := by
  induction gens generalizing rs with
  | nil =>
    simp only [processGens, Except.ok.injEq] at h
    rw [← h]
    intro r hr
    simp at hr
  | cons g gs ih =>
    simp only [processGens] at h
    cases hc : processCands g.name ignore kwargs url_for g.yields with
    | error e => rw [hc] at h; simp at h
    | ok rs1 =>
      rw [hc] at h
      cases hrest : processGens ignore kwargs url_for gs with
      | error e => rw [hrest] at h; simp at h
      | ok rs2 =>
        rw [hrest] at h
        simp only [Except.ok.injEq] at h
        rw [← h]
        intro r hr
        rcases List.mem_append.mp hr with h1 | h2
        · exact processCands_loc_isSome g.name ignore kwargs url_for g.yields rs1 hc r h1
        · exact ih rs2 hrest r h2

/-- Claim C6 counterexample: a generator may yield the empty string, and
the emitted record's `loc` is then the empty string — a record whose `loc`
is present but not non-empty, refuting the claim as stated. -/
theorem record_with_empty_loc :
    generate_all_urls cfg0 urlFor0 [{ name := "g", yields := [Candidate.str ""] }] =
      Except.ok [{ loc := Option.some "" }] ∧
    String.length "" = 0 :=
  ⟨rfl, rfl⟩

/-- Claim C6 (amended): every record emitted by `_generate_all_urls` has
its `loc` field set, for every generator and every candidate shape; the
string it holds is the verbatim candidate for string candidates and may
therefore be empty. -/
theorem emitted_records_loc_is_set (cfg : SitemapConfig) (url_for : UrlFor)
    (gens : List Generator) (rs : List URLRecord)
    (h : generate_all_urls cfg url_for gens = Except.ok rs) :
    ∀ r ∈ rs, (r.loc).isSome = true :=
  processGens_loc_isSome (ignoreSet cfg) (sitemapKwargs cfg) url_for gens rs h

/-- Witness for the amended claim C6 at a one-generator run. -/
theorem emitted_records_loc_is_set_witness :
    (({ loc := Option.some "/a" } : URLRecord).loc).isSome = true :=
  emitted_records_loc_is_set cfg0 urlFor0
    [{ name := "g", yields := [Candidate.str "/a"] }]
    [{ loc := Option.some "/a" }] rfl { loc := Option.some "/a" } (by simp)

/-- Overwriting the value stored under `k` in place does not change which
keys a dictionary contains. -/
theorem dictContains_map_set (d : Dict) (k k2 : String) (v : Value) :
    dictContains (d.map (fun p => if p.1 == k then (k, v) else p)) k2 =
      dictContains d k2 := by
  induction d with
  | nil => rfl
  | cons p ps ih =>
    show ((if p.1 == k then (k, v) else p).1 == k2 ||
        dictContains (ps.map (fun p => if p.1 == k then (k, v) else p)) k2) =
      (p.1 == k2 || dictContains ps k2)
    rw [ih]
    by_cases h : p.1 = k
    · simp [h]
    · simp [h]

/-- After `d[k] = v`, a dictionary contains `k2` exactly when it did before
or `k2` is the assigned key. -/
theorem dictContains_dictSet (d : Dict) (k k2 : String) (v : Value) :
    dictContains (dictSet d k v) k2 = (dictContains d k2 || k == k2) := by
  unfold dictSet
  by_cases h : dictContains d k = true
  · rw [if_pos h, dictContains_map_set]
    by_cases hk : k = k2
    · subst hk
      simp [h]
    · simp [hk]
  · rw [if_neg h]
    show dictContains (d ++ [(k, v)]) k2 = _
    simp [dictContains, List.any_append]

/-- After `values.update(kwargs)` with the sitemap keyword arguments, the
dictionary carries the `_external` and `_scheme` keys. -/
theorem dictUpdate_kwargs_contains (cfg : SitemapConfig) (m : Dict) :
    dictContains (dictUpdate m (sitemapKwargs cfg)) "_external" = true ∧
    dictContains (dictUpdate m (sitemapKwargs cfg)) "_scheme" = true := by
  constructor <;>
    simp [dictUpdate, sitemapKwargs, dictContains_dictSet]

/-- Claim C10 counterexample: a mapping candidate from a generator whose
name lies in the ignore set is skipped by the `continue` before
`values.update(kwargs)` runs, so the caller's mapping is left exactly as it
was — here it still lacks the `_external` key — refuting the claim that
every mapping candidate's mapping is mutated. -/
theorem ignored_mapping_left_unchanged :
    collectOne "g" (ignoreSet cfgIgnoreG) (sitemapKwargs cfgIgnoreG) urlFor0
        (Candidate.map [("id", Value.vint 3)]) =
      Except.ok (Option.none, Candidate.map [("id", Value.vint 3)]) ∧
    dictContains [("id", Value.vint 3)] "_external" = false :=
  ⟨rfl, rfl⟩

/-- Claim C10 (amended): for every mapping candidate whose generator's name
is not in the ignore set, and for the parameter-mapping element of every
tuple candidate not skipped by the ignore set, collection mutates the
mapping object in place before URL resolution, replacing its content by
the original updated with the fixed keyword arguments; the result carries
the `_external` and `_scheme` keys, so the caller's mapping is changed
whenever it lacked them.  (A candidate skipped by the ignore set is
skipped before the update.) -/
theorem values_update_in_place (cfg : SitemapConfig) (url_for : UrlFor)
    (genName e : String) (m : Dict) (left : List Elem)
    (he : e ∉ ignoreSet cfg) :
    (genName ∉ ignoreSet cfg →
      collectOne genName (ignoreSet cfg) (sitemapKwargs cfg) url_for
          (Candidate.map m) =
        Except.ok
          (Option.some
            { loc := Option.some (url_for genName (dictUpdate m (sitemapKwargs cfg))) },
           Candidate.map (dictUpdate m (sitemapKwargs cfg)))) ∧
    Except.map Prod.snd
        (collectOne genName (ignoreSet cfg) (sitemapKwargs cfg) url_for
          (Candidate.seq (Elem.val (Value.vstr e) :: Elem.map m :: left))) =
      Except.ok
        (Candidate.seq
          (Elem.val (Value.vstr e) :: Elem.map (dictUpdate m (sitemapKwargs cfg)) :: left)) ∧
    dictContains (dictUpdate m (sitemapKwargs cfg)) "_external" = true ∧
    dictContains (dictUpdate m (sitemapKwargs cfg)) "_scheme" = true ∧
    (dictContains m "_external" = false →
      dictUpdate m (sitemapKwargs cfg) ≠ m) := by
  refine ⟨fun hg => by simp [collectOne, hg], by simp [collectOne, he, Except.map],
    (dictUpdate_kwargs_contains cfg m).1, (dictUpdate_kwargs_contains cfg m).2,
    ?_⟩
  intro hext heq
  have hc := (dictUpdate_kwargs_contains cfg m).1
  rw [heq, hext] at hc
  exact Bool.false_ne_true hc

/-- Witness for the amended claim C10 at a concrete mapping lacking the
keyword-argument keys. -/
theorem values_update_in_place_witness :
    collectOne "g" (ignoreSet cfg0) (sitemapKwargs cfg0) urlFor0
        (Candidate.map [("id", Value.vint 3)]) =
      Except.ok
        (Option.some
          { loc := Option.some
              (urlFor0 "g" (dictUpdate [("id", Value.vint 3)] (sitemapKwargs cfg0))) },
         Candidate.map (dictUpdate [("id", Value.vint 3)] (sitemapKwargs cfg0))) ∧
    Except.map Prod.snd
        (collectOne "g" (ignoreSet cfg0) (sitemapKwargs cfg0) urlFor0
          (Candidate.seq
            (Elem.val (Value.vstr "e") :: Elem.map [("id", Value.vint 3)] :: []))) =
      Except.ok
        (Candidate.seq
          (Elem.val (Value.vstr "e") ::
            Elem.map (dictUpdate [("id", Value.vint 3)] (sitemapKwargs cfg0)) :: [])) ∧
    dictContains (dictUpdate [("id", Value.vint 3)] (sitemapKwargs cfg0)) "_external" = true ∧
    dictContains (dictUpdate [("id", Value.vint 3)] (sitemapKwargs cfg0)) "_scheme" = true ∧
    (dictContains [("id", Value.vint 3)] "_external" = false →
      dictUpdate [("id", Value.vint 3)] (sitemapKwargs cfg0) ≠ [("id", Value.vint 3)]) :=
  have hfull := values_update_in_place cfg0 urlFor0 "g" "e" [("id", Value.vint 3)] []
    (by simp [ignoreSet, cfg0])
  ⟨hfull.1 (by simp [ignoreSet, cfg0]), hfull.2.1, hfull.2.2.1, hfull.2.2.2.1,
    hfull.2.2.2.2⟩

end FlaskSitemap
